import Mathlib

/-!
# SnipVault frontend: the session/auth contract and the visibility model

This development shallowly embeds the client-side logic of the SnipVault
snippet manager: the axios clients and their interceptors (`lib/api.ts`),
the auth context (`login`, `signup`, `logout`, `checkAuth` in
`contexts/AuthContext.tsx`), the dashboard's snippet operations
(`pages/Dashboard.tsx`), the public-catalog filter
(`pages/PublicSnippets.tsx`), the tag form handlers
(`pages/CreateSnippet.tsx`) and the tag manager (`components/TagManager.tsx`).

Stateful browser code is embedded as explicit state passing over `AppState`
(localStorage token, window location, React state); requests are
parameterised by the server's response, and code that throws returns
`Except`.
-/

namespace SnipVault

/-- A tag, after `lib/types.ts` (`interface Tag`). -/
structure Tag where
  id : Nat
  name : String
  created_at : String
deriving DecidableEq, Repr

/-- A snippet, after `lib/types.ts` (`interface Snippet`). -/
structure Snippet where
  id : Nat
  title : String
  code : String
  language : String
  description : Option String
  is_public : Bool
  created_at : String
  updated_at : Option String
  user_id : Nat
  tags : List Tag
deriving DecidableEq, Repr

/-- A user, after the `User` interface of `AuthContext.tsx`. -/
structure User where
  id : Nat
  email : String
  username : String
  is_active : Bool
  created_at : String
  updated_at : Option String
deriving DecidableEq, Repr

/-- A character JavaScript `String.prototype.trim` strips: space, tab,
line feed, carriage return, vertical tab, form feed. -/
def jsWhitespace (c : Char) : Bool :=
  c == ' ' || c == '\t' || c == '\n' || c == '\r' || c == '\x0b' || c == '\x0c'

/-- JavaScript `s.trim()`: surrounding whitespace removed on both ends. -/
def jsTrim (s : String) : String :=
  ⟨((s.data.dropWhile jsWhitespace).reverse.dropWhile jsWhitespace).reverse⟩

/-- JavaScript `s.toLowerCase()` on the ASCII range: each character
lower-cased. -/
def jsToLower (s : String) : String :=
  ⟨s.data.map Char.toLower⟩

/-- Whether `needle` occurs as a contiguous sublist of the second list:
the semantics of JavaScript `String.prototype.includes` on char lists. -/
def charsContain (needle : List Char) : List Char → Bool
  | [] => needle.isEmpty
  | c :: rest => needle.isPrefixOf (c :: rest) || charsContain needle rest

/-- JavaScript `hay.includes(needle)`: substring occurrence. -/
def strContains (hay needle : String) : Bool :=
  charsContain needle.data hay.data

/-- Occurrence of `needle` in `hay` up to case: both sides lower-cased
before the substring test, as the search filter does. -/
def occursCI (needle hay : String) : Bool :=
  strContains (jsToLower hay) (jsToLower needle)

/-- The whole client-visible mutable state: the persisted token
(`localStorage 'token'`), the browser location, the auth context's React
state, and the component states the modelled operations touch. -/
structure AppState where
  storedToken : Option String
  location : String
  user : Option User
  authToken : Option String
  isLoading : Bool
  snippets : List Snippet
  tagList : List Tag
  formTags : List String
  formTagInput : String
  publicList : List Snippet
deriving DecidableEq, Repr

/-- An axios response error as seen by the interceptor:
`error.response?.status` (absent on transport failure) and
`error.config.url` (optional in axios config). -/
structure ErrorResp where
  status : Option Nat
  url : Option String
deriving DecidableEq, Repr

/-- JavaScript `error.config.url?.includes(m)` under `!`-coercion: an
absent url is `undefined`, which is falsy. -/
def optUrlIncludes (u : Option String) (m : String) : Bool :=
  match u with
  | some s => strContains s m
  | none => false

/-- The response interceptor installed on the authenticated client
(`lib/api.ts`, `api.interceptors.response.use` error branch): on a 401,
off the login page, with a url containing neither public marker, it
removes the stored token and navigates to `/login`; otherwise it only
re-rejects. -/
def api401Handler (e : ErrorResp) (st : AppState) : AppState :=
  if e.status == some 401 && st.location != "/login"
      && !(optUrlIncludes e.url "/public/")
      && !(optUrlIncludes e.url "/snippets/public/") then
    { st with storedToken := none, location := "/login" }
  else st

/-- An HTTP request being assembled: url and headers. -/
structure Request where
  url : String
  headers : List (String × String)
deriving DecidableEq, Repr

/-- Assignment `config.headers.X = v`: replace the header if present,
append it otherwise. -/
def setHeader (name value : String) (hs : List (String × String)) :
    List (String × String) :=
  if hs.any (fun p => p.1 == name) then
    hs.map (fun p => if p.1 == name then (p.1, value) else p)
  else hs ++ [(name, value)]

/-- The request interceptor installed on the authenticated client
(`lib/api.ts`): if a token is stored, set `Authorization: Bearer <token>`. -/
def attachTokenInterceptor (stored : Option String) (req : Request) : Request :=
  match stored with
  | some t => { req with headers := setHeader "Authorization" ("Bearer " ++ t) req.headers }
  | none => req

/-- An axios instance as configured by `axios.create` plus the
interceptors later registered on it: its request-interceptor chain and
its response-error-handler chain. -/
structure AxiosClient where
  reqInterceptors : List (Option String → Request → Request)
  respErrorHandlers : List (ErrorResp → AppState → AppState)

/-- The authenticated client `api` of `lib/api.ts`: one request
interceptor attaching the token, one response error handler for 401. -/
def api : AxiosClient :=
  ⟨[attachTokenInterceptor], [api401Handler]⟩

/-- The public client `publicApi` of `lib/api.ts`: created by
`axios.create` with no interceptor ever registered. -/
def publicApi : AxiosClient :=
  ⟨[], []⟩

/-- Running a client's request-interceptor chain over an outgoing request. -/
def buildRequest (c : AxiosClient) (stored : Option String) (r : Request) : Request :=
  c.reqInterceptors.foldl (fun req f => f stored req) r

/-- Running a client's response-error-handler chain on a response error. -/
def handleRespError (c : AxiosClient) (e : ErrorResp) (st : AppState) : AppState :=
  c.respErrorHandlers.foldl (fun s f => f e s) st

/-- The `GET /users/me` call as the auth context sees it, parameterised by
the server's answer: a profile on success, a rejection otherwise. -/
def apiGetMe (resp : Option User) : Except Unit User :=
  match resp with
  | some u => Except.ok u
  | none => Except.error ()

/-- The auth context's `login` (`AuthContext.tsx`): on a rejected
credential exchange the catch block logs and re-throws with no state
change; on success the token is persisted and set, then the profile is
fetched (a failure there also re-throws, after the token was persisted). -/
def login (tokenResp : Option String) (userResp : Option User) (st : AppState) :
    AppState × Except Unit Unit :=
  match tokenResp with
  | none => (st, Except.error ())
  | some tok =>
    let st1 := { st with storedToken := some tok, authToken := some tok }
    match userResp with
    | none => (st1, Except.error ())
    | some u => ({ st1 with user := some u }, Except.ok ())

/-- The auth context's `signup` (`AuthContext.tsx`): identical state
effect to `login`, against the signup endpoint. -/
def signup (tokenResp : Option String) (userResp : Option User) (st : AppState) :
    AppState × Except Unit Unit :=
  match tokenResp with
  | none => (st, Except.error ())
  | some tok =>
    let st1 := { st with storedToken := some tok, authToken := some tok }
    match userResp with
    | none => (st1, Except.error ())
    | some u => ({ st1 with user := some u }, Except.ok ())

/-- The auth context's `logout` (`AuthContext.tsx`): clears the stored
token and the in-memory user and token, then navigates to `/login`. -/
def logout (st : AppState) : AppState :=
  { st with storedToken := none, user := none, authToken := none,
            location := "/login" }

/-- The auth context's `checkAuth` (`AuthContext.tsx`): with no stored
token it only ends the loading state, issuing no request; with one, a
successful profile fetch installs user and token, and a failed one clears
all three. The catch swallows the error, so the function is total and
returns plainly (no `Except`); the boolean records whether the
current-user request was issued. -/
def checkAuth (meResp : Option User) (st : AppState) : AppState × Bool :=
  match st.storedToken with
  | none => ({ st with isLoading := false }, false)
  | some tok =>
    match apiGetMe meResp with
    | Except.ok u =>
        ({ st with user := some u, authToken := some tok, isLoading := false }, true)
    | Except.error _ =>
        ({ st with storedToken := none, user := none, authToken := none,
                   isLoading := false }, true)

/-- The dashboard's `fetchSnippets` (`Dashboard.tsx`): a successful fetch
replaces the local list; a failure only sets an error message. -/
def fetchSnippetsOp (resp : Option (List Snippet)) (st : AppState) : AppState :=
  match resp with
  | some l => { st with snippets := l }
  | none => st

/-- The per-element function of the dashboard's `setSnippets(snippets.map ...)`
(`Dashboard.tsx`): flip `is_public` on an id match, keep the snippet otherwise. -/
def toggleOne (id : Nat) (s : Snippet) : Snippet :=
  if s.id == id then { s with is_public := !s.is_public } else s

/-- The local update of `handleToggleVisibility` (`Dashboard.tsx`):
`snippets.map`, flipping `is_public` on the snippet whose id matches. -/
def toggleLocalUpdate (id : Nat) (l : List Snippet) : List Snippet :=
  l.map (toggleOne id)

/-- The dashboard's `handleToggleVisibility` (`Dashboard.tsx`): the local
list is rewritten only after `toggleSnippetVisibility` resolves; on a
rejected call the catch shows an alert and the list is untouched. -/
def handleToggleVisibility (id : Nat) (serverOk : Bool) (st : AppState) : AppState :=
  if serverOk then { st with snippets := toggleLocalUpdate id st.snippets }
  else st

/-- The dashboard's `handleDelete` (`Dashboard.tsx`): on a confirmed,
acknowledged delete the snippet is filtered out; on failure only an alert. -/
def handleDelete (id : Nat) (serverOk : Bool) (st : AppState) : AppState :=
  if serverOk then { st with snippets := st.snippets.filter (fun s => s.id != id) }
  else st

/-- The tag manager's `fetchTags` (`TagManager.tsx`): success replaces
the tag list, failure only sets an error message. -/
def fetchTagsOp (resp : Option (List Tag)) (st : AppState) : AppState :=
  match resp with
  | some l => { st with tagList := l }
  | none => st

/-- The name the tag manager's `createTag` (`TagManager.tsx`) submits to
`POST /tags`, when it submits at all: a falsy (all-whitespace) input is
rejected up front, otherwise `newTagName.trim()` is sent as given. -/
def createTagPayload (newTagName : String) : Option String :=
  if jsTrim newTagName == "" then none else some (jsTrim newTagName)

/-- The tag manager's `createTag` state effect (`TagManager.tsx`): when a
payload is submitted and the server answers with the created tag, it is
appended to the local list; a rejected call only sets an error message. -/
def createTagOp (newTagName : String) (resp : Option Tag) (st : AppState) : AppState :=
  match createTagPayload newTagName with
  | none => st
  | some _ =>
    match resp with
    | some t => { st with tagList := st.tagList ++ [t] }
    | none => st

/-- The snippet form's `handleAddTag` (`CreateSnippet.tsx`), on the key
event: on Enter with a non-blank input, the trimmed lower-cased name is
appended unless already present (in which case nothing changes, the
input box included). Returns the new `(tags, tagInput)` pair. -/
def handleAddTag (key : String) (tagInput : String) (tags : List String) :
    List String × String :=
  if key == "Enter" && jsTrim tagInput != "" then
    let newTag := jsToLower (jsTrim tagInput)
    if tags.contains newTag then (tags, tagInput)
    else (tags ++ [newTag], "")
  else (tags, tagInput)

/-- The snippet form's `handleTagSelect` (`CreateSnippet.tsx`): the
chosen tag's name is appended as-is unless already present. -/
def handleTagSelect (t : Tag) (tags : List String) : List String :=
  if tags.contains t.name then tags else tags ++ [t.name]

/-- The user-visible events that drive the form's tag list. -/
inductive FormEvent where
  | setInput (s : String)
  | pressKey (key : String)
  | selectTag (t : Tag)
  | removeTag (name : String)
deriving DecidableEq, Repr

/-- One form event applied to the `(tags, tagInput)` component state. -/
def formStep (e : FormEvent) (st : List String × String) : List String × String :=
  match e with
  | FormEvent.setInput s => (st.1, s)
  | FormEvent.pressKey k => handleAddTag k st.2 st.1
  | FormEvent.selectTag t => (handleTagSelect t st.1, st.2)
  | FormEvent.removeTag n => (st.1.filter (fun x => x != n), st.2)

/-- A sequence of form events from a given form state; the component
mounts with `tags = []` and an empty input. -/
def runForm (evs : List FormEvent) (st : List String × String) :
    List String × String :=
  evs.foldl (fun s e => formStep e s) st

/-- The search predicate of `PublicSnippets.tsx`: empty term, or the term
occurs (lower-cased both sides) in the title, in the optional description
(`undefined` is falsy), or in the code. -/
def matchesSearch (term : String) (s : Snippet) : Bool :=
  term == ""
  || strContains (jsToLower s.title) (jsToLower term)
  || (match s.description with
      | some d => strContains (jsToLower d) (jsToLower term)
      | none => false)
  || strContains (jsToLower s.code) (jsToLower term)

/-- The language predicate of `PublicSnippets.tsx`: empty filter or exact
equality. -/
def matchesLanguage (lang : String) (s : Snippet) : Bool :=
  lang == "" || s.language == lang

/-- The tag predicate of `PublicSnippets.tsx`: empty filter or some tag
with exactly that name. -/
def matchesTagFilter (tag : String) (s : Snippet) : Bool :=
  tag == "" || s.tags.any (fun t => t.name == tag)

/-- The `filteredSnippets` computation of `PublicSnippets.tsx`. -/
def filteredSnippets (l : List Snippet) (term lang tag : String) : List Snippet :=
  l.filter (fun s => matchesSearch term s && matchesLanguage lang s && matchesTagFilter tag s)

/-- The public-catalog fetch of `PublicSnippets.tsx`, issued through
`publicApi`: success replaces the list, failure only sets an error. -/
def fetchPublicOp (resp : Option (List Snippet)) (st : AppState) : AppState :=
  match resp with
  | some l => { st with publicList := l }
  | none => st

/-- Every modelled user-triggerable operation of the client, each
parameterised by the server response it observed. -/
inductive Op where
  | opLogin (tokenResp : Option String) (userResp : Option User)
  | opSignup (tokenResp : Option String) (userResp : Option User)
  | opLogout
  | opCheckAuth (meResp : Option User)
  | opRespError (e : ErrorResp)
  | opFetchSnippets (resp : Option (List Snippet))
  | opToggleVisibility (id : Nat) (serverOk : Bool)
  | opDeleteSnippet (id : Nat) (serverOk : Bool)
  | opFetchTags (resp : Option (List Tag))
  | opCreateTag (name : String) (resp : Option Tag)
  | opFormEvent (e : FormEvent)
  | opFetchPublic (resp : Option (List Snippet))
deriving Repr

/-- One operation's effect on the client state. -/
def step (op : Op) (st : AppState) : AppState :=
  match op with
  | Op.opLogin t u => (login t u st).1
  | Op.opSignup t u => (signup t u st).1
  | Op.opLogout => logout st
  | Op.opCheckAuth r => (checkAuth r st).1
  | Op.opRespError e => handleRespError api e st
  | Op.opFetchSnippets r => fetchSnippetsOp r st
  | Op.opToggleVisibility id ok => handleToggleVisibility id ok st
  | Op.opDeleteSnippet id ok => handleDelete id ok st
  | Op.opFetchTags r => fetchTagsOp r st
  | Op.opCreateTag n r => createTagOp n r st
  | Op.opFormEvent e =>
      let p := formStep e (st.formTags, st.formTagInput)
      { st with formTags := p.1, formTagInput := p.2 }
  | Op.opFetchPublic r => fetchPublicOp r st

/-- The operations the spec's shared-resource sentence names as the sole
writers of the persisted token. -/
def isLoginSignupLogout : Op → Bool
  | Op.opLogin _ _ => true
  | Op.opSignup _ _ => true
  | Op.opLogout => true
  | _ => false

/-- The operations that actually write the persisted token: the spec's
three, plus `checkAuth`'s failure path and the 401 response interceptor. -/
def writesToken : Op → Bool
  | Op.opLogin _ _ => true
  | Op.opSignup _ _ => true
  | Op.opLogout => true
  | Op.opCheckAuth _ => true
  | Op.opRespError _ => true
  | _ => false

/-- A concrete user, for instantiating the theorems. -/
def exUser : User :=
  ⟨1, "a@x.com", "alice", true, "2024-01-01", none⟩

/-- A concrete tag. -/
def exTag : Tag :=
  ⟨1, "rust", "2024-01-01"⟩

/-- A concrete snippet. -/
def exSnippet : Snippet :=
  ⟨1, "Hi", "print(1)", "python", some "demo", false, "2024-01-01", none, 1, [exTag]⟩

/-- A concrete client state: logged in, on the dashboard, one snippet. -/
def exSt : AppState :=
  ⟨some "tok", "/dashboard", some exUser, some "tok", false, [exSnippet], [exTag],
   [], "", []⟩

/-! ## Theorems -/

/-- Claim C1: a 401 through the authenticated client, while not on
`/login` and with a request url containing neither `/public/` nor
`/snippets/public/`, removes the persisted token and navigates to
`/login`; a 401 whose url matches a public marker, or arriving on
`/login`, changes nothing. -/
theorem C1_auth_client_401 (e : ErrorResp) (st : AppState)
    (h401 : e.status = some 401) :
    ((st.location ≠ "/login" ∧ optUrlIncludes e.url "/public/" = false ∧
        optUrlIncludes e.url "/snippets/public/" = false) →
      (handleRespError api e st).storedToken = none ∧
      (handleRespError api e st).location = "/login") ∧
    ((optUrlIncludes e.url "/public/" = true ∨
        optUrlIncludes e.url "/snippets/public/" = true ∨ st.location = "/login") →
      handleRespError api e st = st) := by
  constructor
  · rintro ⟨hpath, hp1, hp2⟩
    simp [handleRespError, api, api401Handler, h401, hp1, hp2, hpath]
  · rintro (hp | hp | hp) <;> simp [handleRespError, api, api401Handler, h401, hp]

/-- Witness for C1: a 401 on `/snippets/5` from the dashboard logs out. -/
theorem C1_witness :
    (handleRespError api ⟨some 401, some "/snippets/5"⟩ exSt).storedToken = none ∧
    (handleRespError api ⟨some 401, some "/snippets/5"⟩ exSt).location = "/login" :=
  (C1_auth_client_401 ⟨some 401, some "/snippets/5"⟩ exSt rfl).1
    ⟨by decide, by decide, by decide⟩

/-- Claim C2 as stated is false: `checkAuth` is none of login, signup,
logout, yet on a failed token validation it removes the persisted token. -/
theorem C2_counterexample :
    isLoginSignupLogout (Op.opCheckAuth none) = false ∧
    (step (Op.opCheckAuth none) exSt).storedToken ≠ exSt.storedToken :=
  ⟨rfl, by decide⟩

/-- Claim C2 (amended): the persisted token is written only by login,
signup, logout, `checkAuth`'s failure path, and the authenticated
client's 401 response interceptor; every other modelled operation leaves
it unchanged. -/
theorem C2_amended_token_writers (op : Op) (st : AppState)
    (h : (step op st).storedToken ≠ st.storedToken) : writesToken op = true := by
  cases op with
  | opLogin t u => rfl
  | opSignup t u => rfl
  | opLogout => rfl
  | opCheckAuth r => rfl
  | opRespError e => rfl
  | opFetchSnippets r => cases r <;> exact absurd rfl h
  | opToggleVisibility id ok => cases ok <;> exact absurd rfl h
  | opDeleteSnippet id ok => cases ok <;> exact absurd rfl h
  | opFetchTags r => cases r <;> exact absurd rfl h
  | opCreateTag n r =>
    exfalso
    apply h
    simp only [step, createTagOp]
    cases hp : createTagPayload n with
    | none => rfl
    | some m => cases r <;> rfl
  | opFormEvent e => exact absurd rfl h
  | opFetchPublic r => cases r <;> exact absurd rfl h

/-- Witness for the amended C2: logout changes the stored token and is a
listed writer. -/
theorem C2_witness : writesToken Op.opLogout = true :=
  C2_amended_token_writers Op.opLogout exSt (by decide)

/-- Claim C3: the public client has no interceptors, so no Authorization
header is attached to a request that carries none, and no response error
through it touches the state (in particular neither the stored token nor
the location). -/
theorem C3_public_client_inert (stored : Option String) (r : Request)
    (e : ErrorResp) (st : AppState)
    (h : r.headers.all (fun p => p.1 != "Authorization") = true) :
    (buildRequest publicApi stored r).headers.all
      (fun p => p.1 != "Authorization") = true ∧
    handleRespError publicApi e st = st :=
  ⟨h, rfl⟩

/-- Witness for C3 at a concrete public request and 401. -/
theorem C3_witness :
    (buildRequest publicApi (some "tok") ⟨"/public/snippets", []⟩).headers.all
      (fun p => p.1 != "Authorization") = true ∧
    handleRespError publicApi ⟨some 401, some "/public/snippets"⟩ exSt = exSt :=
  C3_public_client_inert (some "tok") ⟨"/public/snippets", []⟩
    ⟨some 401, some "/public/snippets"⟩ exSt (by decide)

/-- Claim C4 as stated is false: the TagManager's tag creation submits
the trimmed name without lower-casing, so the supplied name `Rust` is
submitted as `Rust`, not normalized to `rust`. -/
theorem C4_counterexample :
    createTagPayload "Rust" = some "Rust" ∧ jsToLower (jsTrim "Rust") ≠ "Rust" :=
  ⟨rfl, by decide⟩

/-- Claim C4 (amended): typed tag addition in the snippet form trims and
lower-cases before the duplicate comparison, so inputs agreeing up to
case and surrounding whitespace produce the same tag list; the
TagManager's creation trims only — names agreeing up to surrounding
whitespace are submitted equal, and what is submitted is exactly the
trimmed name. -/
theorem C4_amended_normalization (a b : String) (tags : List String)
    (hab : jsToLower (jsTrim a) = jsToLower (jsTrim b))
    (ha : jsTrim a ≠ "") (hb : jsTrim b ≠ "") :
    (handleAddTag "Enter" a tags).1 = (handleAddTag "Enter" b tags).1 ∧
    (∀ c d : String, jsTrim c = jsTrim d → createTagPayload c = createTagPayload d) ∧
    (∀ (n m : String), createTagPayload n = some m → m = jsTrim n) := by
  refine ⟨?_, ?_, ?_⟩
  · simp only [handleAddTag, hab, ha, hb, bne_iff_ne, ne_eq, not_false_iff, and_true,
      beq_self_eq_true, if_true]
    by_cases hmem : jsToLower (jsTrim b) ∈ tags <;> simp [hmem, ha, hb]
  · intro c d hcd
    simp [createTagPayload, hcd]
  · intro n m hm
    unfold createTagPayload at hm
    by_cases h : jsTrim n == ""
    · simp [h] at hm
    · simp [h] at hm
      exact hm.symm

/-- Witness for the amended C4: the inputs ` Rust ` and `rust` yield the
same form tag list. -/
theorem C4_witness :
    (handleAddTag "Enter" " Rust " []).1 = (handleAddTag "Enter" "rust" []).1 :=
  (C4_amended_normalization " Rust " "rust" [] (by decide) (by decide) (by decide)).1

/-- Claim C5: a failed toggle call leaves the snippet list exactly
unchanged; an acknowledged one rewrites the list pointwise, flipping
`is_public` exactly on the snippets whose id matches and keeping every
other snippet (and the length) intact. -/
theorem C5_toggle_only_after_ack (id : Nat) (st : AppState) :
    handleToggleVisibility id false st = st ∧
    (handleToggleVisibility id true st).snippets.length = st.snippets.length ∧
    (∀ (i : Nat) (s : Snippet), st.snippets[i]? = some s →
      (handleToggleVisibility id true st).snippets[i]? =
        some (if s.id = id then { s with is_public := !s.is_public } else s)) := by
  refine ⟨rfl, by simp [handleToggleVisibility, toggleLocalUpdate], ?_⟩
  intro i s hs
  simp only [handleToggleVisibility, toggleLocalUpdate, if_pos, List.getElem?_map, hs,
    Option.map_some]
  by_cases h : s.id = id <;> simp [toggleOne, h]

/-- Witness for C5: an acknowledged toggle on the example state flips the
one matching snippet. -/
theorem C5_witness :
    (handleToggleVisibility 1 true exSt).snippets[0]? =
      some (if exSnippet.id = 1 then { exSnippet with is_public := !exSnippet.is_public }
            else exSnippet) :=
  (C5_toggle_only_after_ack 1 exSt).2.2 0 exSnippet (by decide)

/-- Flipping one snippet twice restores it: the map's function is an
involution. -/
lemma toggleOne_involutive (id : Nat) (s : Snippet) :
    toggleOne id (toggleOne id s) = s := by
  unfold toggleOne
  by_cases h : s.id == id
  · simp [h]
  · simp [h]

/-- The local visibility update is an involution on the list. -/
lemma toggleLocalUpdate_involutive (id : Nat) (l : List Snippet) :
    toggleLocalUpdate id (toggleLocalUpdate id l) = l := by
  unfold toggleLocalUpdate
  rw [List.map_map]
  have h : ∀ s ∈ l, (toggleOne id ∘ toggleOne id) s = s := fun s _ =>
    toggleOne_involutive id s
  rw [List.map_congr_left h]
  simp

/-- Claim C9: two acknowledged visibility toggles on the same id restore
the state exactly — `is_public` returns to its initial value and no other
field of any snippet changes. -/
theorem C9_toggle_twice (id : Nat) (st : AppState) :
    handleToggleVisibility id true (handleToggleVisibility id true st) = st := by
  simp [handleToggleVisibility, toggleLocalUpdate_involutive]

/-- The search predicate, read as a proposition: empty term, or the term
occurs case-insensitively in title, description (when present), or code. -/
lemma matchesSearch_iff (term : String) (s : Snippet) :
    matchesSearch term s = true ↔
      term = "" ∨ occursCI term s.title = true ∨
      (∃ d, s.description = some d ∧ occursCI term d = true) ∨
      occursCI term s.code = true := by
  cases hd : s.description <;>
    simp [matchesSearch, occursCI, hd, Bool.or_eq_true, beq_iff_eq, or_assoc]

/-- Claim C6: a snippet is in the filtered result exactly when it is in
the fetched list and passes the three filters — search term empty or
occurring case-insensitively in title, description or code; language
filter empty or an exact match; tag filter empty or matched exactly by
some tag name — and with all three filters empty the result is the
fetched list itself. -/
theorem C6_public_filter (l : List Snippet) (term lang tag : String) :
    (∀ s : Snippet, s ∈ filteredSnippets l term lang tag ↔
        s ∈ l ∧
        (term = "" ∨ occursCI term s.title = true ∨
          (∃ d, s.description = some d ∧ occursCI term d = true) ∨
          occursCI term s.code = true) ∧
        (lang = "" ∨ s.language = lang) ∧
        (tag = "" ∨ ∃ t, t ∈ s.tags ∧ t.name = tag)) ∧
    filteredSnippets l "" "" "" = l := by
  constructor
  · intro s
    simp [filteredSnippets, List.mem_filter, Bool.and_eq_true, matchesSearch_iff,
      matchesLanguage, matchesTagFilter, List.any_eq_true, beq_iff_eq, and_assoc]
  · have h : ∀ s ∈ l,
        (matchesSearch "" s && matchesLanguage "" s && matchesTagFilter "" s) = true := by
      intro s _
      simp [matchesSearch, matchesLanguage, matchesTagFilter]
    simpa [filteredSnippets] using List.filter_eq_self.mpr h

/-- Witness for C6 at the example list with all filters empty. -/
theorem C6_witness : filteredSnippets [exSnippet] "" "" "" = [exSnippet] :=
  (C6_public_filter [exSnippet] "" "" "").2

/-- Claim C7: with a stored token whose validation fails, `checkAuth`
removes the token and nulls the in-memory user and token (the catch
swallows the error, which the embedding reflects by returning plainly
rather than an `Except`); with no stored token it issues no request and
leaves token, user and stored token unchanged. -/
theorem C7_checkAuth_silent (st : AppState) :
    (st.storedToken.isSome = true →
      (checkAuth none st).1.storedToken = none ∧
      (checkAuth none st).1.user = none ∧
      (checkAuth none st).1.authToken = none) ∧
    (st.storedToken = none → ∀ meResp : Option User,
      (checkAuth meResp st).2 = false ∧
      (checkAuth meResp st).1.storedToken = st.storedToken ∧
      (checkAuth meResp st).1.user = st.user ∧
      (checkAuth meResp st).1.authToken = st.authToken) := by
  constructor
  · intro h
    match hst : st.storedToken with
    | some tok => simp [checkAuth, hst, apiGetMe]
    | none => simp [hst] at h
  · intro h meResp
    simp [checkAuth, h]

/-- Witness for C7: a failed validation on the example state degrades it
to anonymous. -/
theorem C7_witness :
    (checkAuth none exSt).1.storedToken = none ∧
    (checkAuth none exSt).1.user = none ∧
    (checkAuth none exSt).1.authToken = none :=
  (C7_checkAuth_silent exSt).1 (by decide)

/-- Claim C8: a rejected credential exchange leaves the whole state
untouched and re-throws, and the stored token can only change when the
exchange answered with a token. -/
theorem C8_login_rejected (userResp : Option User) (st : AppState) :
    login none userResp st = (st, Except.error ()) ∧
    (∀ tokenResp : Option String,
      (login tokenResp userResp st).1.storedToken ≠ st.storedToken →
      tokenResp ≠ none) := by
  refine ⟨rfl, ?_⟩
  intro t h hn
  subst hn
  exact h rfl

/-- Witness for C8 at the example state. -/
theorem C8_witness : login none (some exUser) exSt = (exSt, Except.error ()) :=
  (C8_login_rejected (some exUser) exSt).1

/-- Each form event preserves distinctness of the tag list. -/
lemma formStep_nodup (e : FormEvent) (st : List String × String)
    (h : st.1.Nodup) : (formStep e st).1.Nodup := by
  cases e with
  | setInput s => exact h
  | pressKey k =>
    simp only [formStep, handleAddTag]
    split
    · split
      next hc => exact h
      next hc =>
        simp at hc
        exact List.Nodup.append h (List.nodup_singleton _)
          (fun x hx hx' => hc (by simp at hx'; exact hx' ▸ hx))
    · exact h
  | selectTag t =>
    simp only [formStep, handleTagSelect]
    split
    · exact h
    next hc =>
      simp at hc
      exact List.Nodup.append h (List.nodup_singleton _)
        (fun x hx hx' => hc (by simp at hx'; exact hx' ▸ hx))
  | removeTag n => exact h.filter _

/-- Distinctness of the form's tag list is preserved along any event
sequence. -/
lemma runForm_nodup (evs : List FormEvent) (st : List String × String)
    (h : st.1.Nodup) : (runForm evs st).1.Nodup := by
  induction evs generalizing st with
  | nil => exact h
  | cons e rest ih => exact ih _ (formStep_nodup e st h)

/-- Claim C10: from the empty initial form, every sequence of events
leaves the tag list duplicate-free; typing a name whose trimmed
lower-casing is already present leaves the list unchanged, and selecting
a tag whose name is already present leaves the whole form state
unchanged. -/
theorem C10_form_tags_nodup (evs : List FormEvent) :
    (runForm evs ([], "")).1.Nodup ∧
    (∀ (tags : List String) (input : String),
      jsToLower (jsTrim input) ∈ tags →
      (formStep (FormEvent.pressKey "Enter") (tags, input)).1 = tags) ∧
    (∀ (tags : List String) (input : String) (t : Tag),
      t.name ∈ tags →
      formStep (FormEvent.selectTag t) (tags, input) = (tags, input)) := by
  refine ⟨runForm_nodup evs _ (by simp), ?_, ?_⟩
  · intro tags input hc
    simp [formStep, handleAddTag, hc]
  · intro tags input t hc
    simp [formStep, handleTagSelect, hc]

/-- Witness for C10: retyping an already-present tag (up to case and
whitespace) changes nothing. -/
theorem C10_witness :
    (formStep (FormEvent.pressKey "Enter") (["rust"], " Rust ")).1 = ["rust"] :=
  (C10_form_tags_nodup []).2.1 ["rust"] " Rust " (by decide)

end SnipVault
